import Mathlib

/-!
Verification of the sync engine of Project-Cloud (S3Sync.py, backupjob.py,
Ver4.2.py): a shallow embedding of the change-detection upload pass, the
restore pass, the selective (browse) restore, the streaming MD5 fingerprint,
and S3 key derivation, together with theorems settling the specification's
claims.

Modelling conventions:
* File and object contents are byte lists (`Bytes`).
* The MD5 hex digest itself is abstract: an arbitrary function
  `Bytes → String`.  `compute_md5` embeds the streaming structure of the
  Python `compute_md5` (read the file in 4096-byte chunks, feed each chunk
  to the digest object, then take the hex digest).
* Network effects are oracles: `S3Env.head` is the outcome of
  `s3.head_object` per key, `S3Env.uploadOk` says whether `s3.upload_file`
  succeeds for a key, `RestoreEnv.pages` are the paginator's pages, and
  `RestoreEnv.fetch` is the content `s3.download_file` obtains for a key
  (`none` means the call raises).
* The local filesystem is an association list path ↦ content (newest entry
  first); the `mkdirs` field records the `os.makedirs` calls issued.
* The `uploads` / `downloads` fields record the transfer calls issued
  (attempted), whether or not they succeed; `logs` records the per-file
  messages the code emits (print calls in backupjob.py, self.log in the
  GUI frames).
* Path manipulation (`os.path.relpath`, `os.path.join`, `os.path.dirname`)
  is modelled for the situations the sync engine creates: relative paths
  are computed for keys that extend the listing prefix (S3's Prefix filter
  guarantees this), so the parent-directory (`..`) branches of
  `os.path.relpath` never arise and are not modelled.
-/

/-- Byte strings: file and object contents. -/
abbrev Bytes := List Nat

/-- The chunked read loop of compute_md5: iter(lambda: f.read(4096), b"")
yields successive 4096-byte chunks of the file until the read is empty. -/
def readChunks (bs : Bytes) : List Bytes :=
  if h : bs = [] then []
  else bs.take 4096 :: readChunks (bs.drop 4096)
termination_by bs.length
decreasing_by
  simp only [List.length_drop]
  have hpos : 0 < bs.length := List.length_pos.mpr h
  omega

/-- A hashlib digest object's state is the byte sequence fed so far;
hash_md5.update(chunk) appends the chunk. -/
def md5_update (st chunk : Bytes) : Bytes := st ++ chunk

/-- compute_md5 (S3Sync.py lines 40-45, backupjob.py lines 18-24,
Ver4.2.py lines 153-158): stream the file in 4096-byte chunks through the
digest object and return the hex digest.  The digest itself (hashlib.md5's
compression plus hexdigest) is abstract: hexdigest maps the accumulated
bytes to the final hex string. -/
def compute_md5 (hexdigest : Bytes → String) (content : Bytes) : String :=
  hexdigest ((readChunks content).foldl md5_update [])

/-- Replacement of one character: a backslash becomes a forward slash,
every other character is kept. -/
def normChar (c : Char) : Char :=
  if c = '\\' then '/' else c

/-- Python str.replace applied to single characters: replace every
backslash with a forward slash (the .replace of backupjob.py line 43 and
S3Sync.py line 196). -/
def normalizeSeps (s : String) : String :=
  String.mk (s.data.map normChar)

/-- Remote key derivation (backupjob.py line 43:
f-string backup/{computer_folder}/{rel_path} followed by .replace;
S3Sync.py lines 167 and 196: os.path.join of the prefix
backup/{computer_folder}/ with rel_path, followed by .replace — since the
prefix ends in a separator, os.path.join concatenates directly on every
platform, and rel_path produced by os.path.relpath is never absolute). -/
def derive_key (computer_folder rel_path : String) : String :=
  normalizeSeps ("backup/" ++ computer_folder ++ "/" ++ rel_path)

/-- Python dict.get with default None on a string-to-string metadata
mapping, modelled as an association list (first binding wins). -/
def mdGet (meta : List (String × String)) (k : String) : Option String :=
  (meta.find? (fun p => p.1 == k)).map Prod.snd

/-- Outcome of an s3.head_object call as discriminated by the code's
except clauses: success with the response's Metadata mapping, a botocore
ClientError carrying an error code (the code checks for 404), or any
other exception. -/
inductive HeadOutcome where
  | ok (meta : List (String × String))
  | clientError (code : String)
  | otherError
deriving DecidableEq

/-- Environment of an upload pass: the abstract MD5 hex digest, the
per-key outcome of head_object, and whether upload_file succeeds for a
key. -/
structure S3Env where
  md5hex : Bytes → String
  head : String → HeadOutcome
  uploadOk : String → Bool

/-- A local file discovered by the os.walk enumeration: its path relative
to the sync root and its byte content (os.path.getsize is the content's
length). -/
structure FileEntry where
  relPath : String
  content : Bytes
deriving DecidableEq

/-- An s3.upload_file call: target key, the file's bytes, and the
ExtraArgs Metadata mapping. -/
structure UploadCall where
  key : String
  content : Bytes
  metadata : List (String × String)
deriving DecidableEq

/-- The per-file messages emitted by the upload passes (print in
backupjob.py, self.log in the frames). -/
inductive LogEvent where
  | skipping (path : String)
  | errorChecking (key : String)
  | uploaded (path : String)
  | errorUploading (path : String)
deriving DecidableEq

/-- Result of processing one file of the upload pass: the upload calls
issued, the log lines emitted, and the amount added to the progress
counter bytes_uploaded. -/
structure StepResult where
  uploads : List UploadCall
  logs : List LogEvent
  bytesAdvanced : Nat
deriving DecidableEq

/-- The upload attempt of BackupFrame.backup_directory (S3Sync.py lines
210-220): upload_file is called with Metadata file_md5; on success the
Uploaded line is logged and the progress callback has advanced by the
file's size, on failure the error is logged. -/
def frame_upload (env : S3Env) (f : FileEntry) (s3_key local_md5 : String) : StepResult :=
  { uploads := [{ key := s3_key, content := f.content, metadata := [("file_md5", local_md5)] }],
    logs := [if env.uploadOk s3_key then LogEvent.uploaded f.relPath
             else LogEvent.errorUploading f.relPath],
    bytesAdvanced := if env.uploadOk s3_key then f.content.length else 0 }

/-- One iteration of the per-file loop of BackupFrame.backup_directory
(S3Sync.py lines 195-220): derive the key, compute the local MD5, try
head_object; if it succeeds and the stored file_md5 equals the local one,
log Skipping, advance progress by the file's size and continue; any
exception from head_object is swallowed (except Exception: pass) and the
flow proceeds to the upload attempt, as it also does when the fingerprints
differ. -/
def BackupFrame_backup_step (env : S3Env) (computer_folder : String) (f : FileEntry) : StepResult :=
  let s3_key := derive_key computer_folder f.relPath
  let local_md5 := compute_md5 env.md5hex f.content
  match env.head s3_key with
  | HeadOutcome.ok meta =>
      if mdGet meta "file_md5" = some local_md5 then
        { uploads := [], logs := [LogEvent.skipping f.relPath],
          bytesAdvanced := f.content.length }
      else frame_upload env f s3_key local_md5
  | HeadOutcome.clientError _ => frame_upload env f s3_key local_md5
  | HeadOutcome.otherError => frame_upload env f s3_key local_md5

/-- The upload attempt of backupjob.backup_directory (backupjob.py lines
61-69): upload_file with Metadata file_md5; success prints Uploaded,
failure is caught by the outer except and prints Error uploading.  The
headless script keeps no progress counter (bytes_uploaded is initialised
but never updated), so bytesAdvanced is 0. -/
def backupjob_upload (env : S3Env) (f : FileEntry) (s3_key local_md5 : String) : StepResult :=
  { uploads := [{ key := s3_key, content := f.content, metadata := [("file_md5", local_md5)] }],
    logs := [if env.uploadOk s3_key then LogEvent.uploaded f.relPath
             else LogEvent.errorUploading f.relPath],
    bytesAdvanced := 0 }

/-- One iteration of the per-file loop of backupjob.backup_directory
(backupjob.py lines 42-69, same ClientError discrimination as
Ver4.2.py lines 194-224): head_object success with equal file_md5 prints
Skipping and continues; a ClientError with code 404 falls through to the
upload; a ClientError with any other code prints Error checking and
continues (skip); any non-ClientError exception is caught by the outer
handler, which prints Error uploading and continues. -/
def backupjob_backup_step (env : S3Env) (computer_folder : String) (f : FileEntry) : StepResult :=
  let s3_key := derive_key computer_folder f.relPath
  let local_md5 := compute_md5 env.md5hex f.content
  match env.head s3_key with
  | HeadOutcome.ok meta =>
      if mdGet meta "file_md5" = some local_md5 then
        { uploads := [], logs := [LogEvent.skipping f.relPath], bytesAdvanced := 0 }
      else backupjob_upload env f s3_key local_md5
  | HeadOutcome.clientError code =>
      if code = "404" then backupjob_upload env f s3_key local_md5
      else { uploads := [], logs := [LogEvent.errorChecking s3_key], bytesAdvanced := 0 }
  | HeadOutcome.otherError =>
      { uploads := [], logs := [LogEvent.errorUploading f.relPath], bytesAdvanced := 0 }

/-- Cumulative outcome of an upload pass over the enumerated file list. -/
structure PassResult where
  uploads : List UploadCall
  logs : List LogEvent
  bytesUploaded : Nat
deriving DecidableEq

/-- Sequencing of per-file results along the loop: upload calls and log
lines accumulate in order, the progress counter adds up. -/
def combineStep (acc : PassResult) (r : StepResult) : PassResult :=
  { uploads := acc.uploads ++ r.uploads,
    logs := acc.logs ++ r.logs,
    bytesUploaded := acc.bytesUploaded + r.bytesAdvanced }

/-- The per-file loop of BackupFrame.backup_directory (S3Sync.py lines
195-220) over the file list produced by the os.walk enumeration. -/
def BackupFrame_backup_directory (env : S3Env) (computer_folder : String)
    (files : List FileEntry) : PassResult :=
  files.foldl (fun acc f => combineStep acc (BackupFrame_backup_step env computer_folder f))
    { uploads := [], logs := [], bytesUploaded := 0 }

/-- The per-file loop of backupjob.backup_directory (backupjob.py lines
42-69) over the enumerated file list. -/
def backupjob_backup_directory (env : S3Env) (computer_folder : String)
    (files : List FileEntry) : PassResult :=
  files.foldl (fun acc f => combineStep acc (backupjob_backup_step env computer_folder f))
    { uploads := [], logs := [], bytesUploaded := 0 }

/-- Splitting a character list at '/' characters, the semantics of
Python's str.split on a single separator. -/
def splitSlash : List Char → List (List Char)
  | [] => [[]]
  | c :: rest =>
      if c = '/' then [] :: splitSlash rest
      else
        match splitSlash rest with
        | [] => [[c]]
        | g :: gs => (c :: g) :: gs

/-- The component decomposition os.path.relpath performs: split on the
separator and drop empty components (posixpath.relpath filters out empty
strings, which also makes a trailing slash on either argument
irrelevant). -/
def pathComponents (s : String) : List String :=
  ((splitSlash s.data).map String.mk).filter (fun c => c ≠ "")

/-- Joining path components with '/' (os.path.join of relative
components). -/
def joinComponents : List String → String
  | [] => ""
  | [c] => c
  | c :: rest => c ++ "/" ++ joinComponents rest

/-- os.path.relpath(path, start) in the situation the restore passes
create: start is an ancestor of path (every listed key extends the
Prefix), so the result is the trailing components of path after start's
components. -/
def os_relpath (path start : String) : String :=
  joinComponents ((pathComponents path).drop (pathComponents start).length)

/-- os.path.join(dir, rel) for a non-empty dir and a relative rel:
concatenation with a single separator (no extra separator when dir
already ends in one). -/
def joinPath (dir rel : String) : String :=
  if dir.data.getLast? = some '/' then dir ++ rel else dir ++ "/" ++ rel

/-- os.path.dirname: everything before the last '/' of the path, the
empty string when the path has no separator. -/
def dirname (p : String) : String :=
  match p.data.reverse.dropWhile (fun c => c ≠ '/') with
  | [] => ""
  | _ :: rest => String.mk rest.reverse

/-- One page yielded by the list_objects_v2 paginator: either its
Contents as (Key, Size) pairs, or the exception raised while draining
the iterator at that point. -/
inductive PageResult where
  | ok (objs : List (String × Nat))
  | err (msg : String)
deriving DecidableEq

/-- Draining the paginator (S3Sync.py lines 240-248): pages are
concatenated into object_list; an exception at any point abandons the
whole accumulated listing. -/
def drainPages : List PageResult → Except String (List (String × Nat))
  | [] => Except.ok []
  | PageResult.ok objs :: rest =>
      match drainPages rest with
      | Except.ok tail => Except.ok (objs ++ tail)
      | Except.error e => Except.error e
  | PageResult.err e :: _ => Except.error e

/-- Environment of a restore pass: the paginator's pages and the content
download_file obtains per key (none: the download raises). -/
structure RestoreEnv where
  pages : List PageResult
  fetch : String → Option Bytes

/-- The messages emitted by the restore passes. -/
inductive RLog where
  | errorListing (msg : String)
  | downloaded (key path : String)
  | errorDownloading (key : String)
deriving DecidableEq

/-- State of a restore pass: download calls issued, os.makedirs calls
issued, the local filesystem (path ↦ content, newest binding first), log
lines, and the total size computed for progress reporting. -/
structure RestoreResult where
  downloads : List (String × String)
  mkdirs : List String
  fs : List (String × Bytes)
  logs : List RLog
  totalBytes : Nat
deriving DecidableEq

/-- Writing a file: the new binding shadows any previous one at the same
path (download_file overwrites). -/
def fsWrite (fs : List (String × Bytes)) (path : String) (content : Bytes) :
    List (String × Bytes) :=
  (path, content) :: fs

/-- Reading the current content at a path. -/
def fsRead (fs : List (String × Bytes)) (path : String) : Option Bytes :=
  (fs.find? (fun p => p.1 == path)).map Prod.snd

/-- One iteration of the per-object loop of BackupFrame.restore_backup
(S3Sync.py lines 259-273, identical in Ver4.2.py lines 264-278): derive
the local path with os.path.relpath from the prefix and os.path.join
under the restore directory, call os.makedirs on its dirname, then call
download_file unconditionally (no comparison with any existing local
file); success writes the object's bytes at the path and logs Downloaded,
failure logs the error and the loop continues. -/
def restore_step (env : RestoreEnv) (restore_dir pfx : String)
    (st : RestoreResult) (o : String × Nat) : RestoreResult :=
  let rel_path := os_relpath o.1 pfx
  let local_path := joinPath restore_dir rel_path
  let st := { st with mkdirs := st.mkdirs ++ [dirname local_path] }
  match env.fetch o.1 with
  | some content =>
      { st with downloads := st.downloads ++ [(o.1, local_path)],
                fs := fsWrite st.fs local_path content,
                logs := st.logs ++ [RLog.downloaded o.1 local_path] }
  | none =>
      { st with downloads := st.downloads ++ [(o.1, local_path)],
                logs := st.logs ++ [RLog.errorDownloading o.1] }

/-- BackupFrame.restore_backup (S3Sync.py lines 236-273): drain the
paginated listing under the namespace prefix; an exception while listing
logs the error and returns before anything else happens; otherwise sum
the sizes for progress and run the per-object download loop over the
drained object_list, starting from the caller's local tree fs₀. -/
def BackupFrame_restore_backup (env : RestoreEnv) (restore_dir computer_folder : String)
    (fs₀ : List (String × Bytes)) : RestoreResult :=
  let pfx := "backup/" ++ computer_folder ++ "/"
  match drainPages env.pages with
  | Except.error e =>
      { downloads := [], mkdirs := [], fs := fs₀,
        logs := [RLog.errorListing e], totalBytes := 0 }
  | Except.ok object_list =>
      object_list.foldl (restore_step env restore_dir pfx)
        { downloads := [], mkdirs := [], fs := fs₀, logs := [],
          totalBytes := (object_list.map Prod.snd).sum }

/-- The per-item loop of BrowseRestoreFrame.restore_selected_files
(S3Sync.py lines 703-715), projected to the transfers it starts: before
each item the cooperative flag self.running is checked (index i is the
check made before the i-th selected item) and a cleared flag breaks out
of the loop; otherwise the item's download is started at the local path
derived with os.path.relpath from backup/{computer_folder} (no trailing
slash) joined under the restore directory.  A single download is atomic
here, exactly as in the code: the flag is only consulted between items. -/
def restore_selected_loop (flag : Nat → Bool) (restore_dir pfx : String) :
    Nat → List (String × Nat) → List (String × String)
  | _, [] => []
  | i, o :: rest =>
      if flag i then
        (o.1, joinPath restore_dir (os_relpath o.1 pfx)) ::
          restore_selected_loop flag restore_dir pfx (i + 1) rest
      else []

/-- BrowseRestoreFrame.restore_selected_files (S3Sync.py lines 677-727)
over the selected items, starting with the first flag check. -/
def restore_selected_files (flag : Nat → Bool) (restore_dir computer_folder : String)
    (items : List (String × Nat)) : List (String × String) :=
  restore_selected_loop flag restore_dir ("backup/" ++ computer_folder) 0 items

/-- A stored remote object: content plus its metadata mapping. -/
structure RemoteObject where
  content : Bytes
  metadata : List (String × String)
deriving DecidableEq

/-- Looking a key up in the bucket (the newest binding wins). -/
def bucketGet (bucket : List (String × RemoteObject)) (key : String) : Option RemoteObject :=
  (bucket.find? (fun p => p.1 == key)).map Prod.snd

/-- The storage backend's put semantics for a successful upload_file call
(spec section 6: put-by-key-with-metadata overwrites the object at the
key). -/
def applyUpload (bucket : List (String × RemoteObject)) (u : UploadCall) :
    List (String × RemoteObject) :=
  (u.key, { content := u.content, metadata := u.metadata }) :: bucket

/-- Concrete file used by witnesses: a.txt with a single byte. -/
def fileA : FileEntry := { relPath := "a.txt", content := [0] }

/-- Witness environment: the remote object exists and its stored
fingerprint matches the local one. -/
def envSkip : S3Env :=
  { md5hex := fun _ => "m",
    head := fun _ => HeadOutcome.ok [("file_md5", "m")],
    uploadOk := fun _ => true }

/-- Witness environment: every head_object call fails with a ClientError
whose code is 500, uploads succeed. -/
def envErr : S3Env :=
  { md5hex := fun _ => "m",
    head := fun _ => HeadOutcome.clientError "500",
    uploadOk := fun _ => true }

/-- Witness environment: every head_object call raises a non-ClientError
exception, uploads succeed. -/
def envOther : S3Env :=
  { md5hex := fun _ => "m",
    head := fun _ => HeadOutcome.otherError,
    uploadOk := fun _ => true }

/-- Witness environment: the remote object is absent (404), uploads
succeed. -/
def env404 : S3Env :=
  { md5hex := fun _ => "m",
    head := fun _ => HeadOutcome.clientError "404",
    uploadOk := fun _ => true }

/-- Witness environment: the remote object is absent (404) and the upload
itself fails. -/
def env404fail : S3Env :=
  { md5hex := fun _ => "m",
    head := fun _ => HeadOutcome.clientError "404",
    uploadOk := fun _ => false }

/-- Witness environment: the remote object exists but its metadata has no
file_md5 entry. -/
def envNoTag : S3Env :=
  { md5hex := fun _ => "m",
    head := fun _ => HeadOutcome.ok [],
    uploadOk := fun _ => true }

/-- Witness restore environment: the listing fails on its only page. -/
def renvErrList : RestoreEnv :=
  { pages := [PageResult.err "boom"], fetch := fun _ => none }

/-- Witness restore environment: one listed object whose download
fails. -/
def renvNone : RestoreEnv :=
  { pages := [PageResult.ok [("backup/D/x.txt", 1)]], fetch := fun _ => none }

/-- Witness restore environment: one listed object whose download yields
a single byte 7. -/
def renvSome : RestoreEnv :=
  { pages := [PageResult.ok [("backup/D/x.txt", 1)]], fetch := fun _ => some [7] }

/-- A restore state holding a pre-existing local file at out/x.txt, used
to witness that restore overwrites it. -/
def stPre : RestoreResult :=
  { downloads := [], mkdirs := [], fs := [("out/x.txt", [9])], logs := [], totalBytes := 0 }

theorem readChunks_foldl_fuel :
    ∀ (n : Nat) (bs acc : Bytes), bs.length ≤ n →
      (readChunks bs).foldl md5_update acc = acc ++ bs := by
  intro n
  induction n with
  | zero =>
    intro bs acc h
    have hbs : bs = [] := List.eq_nil_of_length_eq_zero (Nat.le_zero.mp h)
    subst hbs
    simp [readChunks]
  | succ n ih =>
    intro bs acc h
    by_cases hbs : bs = []
    · subst hbs; simp [readChunks]
    · rw [readChunks, dif_neg hbs, List.foldl_cons]
      have hlen : (bs.drop 4096).length ≤ n := by
        have hpos : 0 < bs.length := List.length_pos.mpr hbs
        simp only [List.length_drop]
        omega
      rw [ih (bs.drop 4096) _ hlen]
      simp [md5_update, List.append_assoc]

theorem compute_md5_eq (hexdigest : Bytes → String) (content : Bytes) :
    compute_md5 hexdigest content = hexdigest content := by
  unfold compute_md5
  rw [readChunks_foldl_fuel content.length content [] le_rfl]
  rfl

theorem string_data_append (a b : String) : (a ++ b).data = a.data ++ b.data := by
  cases a; cases b; rfl

theorem upload_pass_foldl (step : FileEntry → StepResult) :
    ∀ (l : List FileEntry) (acc : PassResult),
      l.foldl (fun a f => combineStep a (step f)) acc =
        { uploads := acc.uploads ++ (l.map fun f => (step f).uploads).flatten,
          logs := acc.logs ++ (l.map fun f => (step f).logs).flatten,
          bytesUploaded := acc.bytesUploaded + (l.map fun f => (step f).bytesAdvanced).sum } := by
  intro l
  induction l with
  | nil => intro acc; simp
  | cons f l ih =>
    intro acc
    rw [List.foldl_cons, ih]
    simp [combineStep, List.append_assoc, Nat.add_assoc]

theorem restore_pass_foldl (env : RestoreEnv) (restore_dir pfx : String) :
    ∀ (objs : List (String × Nat)) (st : RestoreResult),
      objs.foldl (restore_step env restore_dir pfx) st =
        { downloads := st.downloads ++
            objs.map (fun o => (o.1, joinPath restore_dir (os_relpath o.1 pfx))),
          mkdirs := st.mkdirs ++
            objs.map (fun o => dirname (joinPath restore_dir (os_relpath o.1 pfx))),
          fs := objs.foldl (fun fs o =>
            match env.fetch o.1 with
            | some c => fsWrite fs (joinPath restore_dir (os_relpath o.1 pfx)) c
            | none => fs) st.fs,
          logs := st.logs ++ objs.map (fun o =>
            match env.fetch o.1 with
            | some _ => RLog.downloaded o.1 (joinPath restore_dir (os_relpath o.1 pfx))
            | none => RLog.errorDownloading o.1),
          totalBytes := st.totalBytes } := by
  intro objs
  induction objs with
  | nil => intro st; simp
  | cons o objs ih =>
    intro st
    rw [List.foldl_cons, ih]
    cases hf : env.fetch o.1 <;>
      simp [restore_step, hf, List.append_assoc]

theorem drainPages_of_mem_err :
    ∀ (pages : List PageResult) (e : String), PageResult.err e ∈ pages →
      ∃ msg, drainPages pages = Except.error msg := by
  intro pages
  induction pages with
  | nil => intro e h; cases h
  | cons p rest ih =>
    intro e h
    cases p with
    | ok objs =>
      have hmem : PageResult.err e ∈ rest := by
        rcases List.mem_cons.mp h with h' | h'
        · simp at h'
        · exact h'
      obtain ⟨msg, hmsg⟩ := ih e hmem
      exact ⟨msg, by simp [drainPages, hmsg]⟩
    | err e' => exact ⟨e', rfl⟩

theorem sum_map_one {α : Type} (l : List α) : (l.map (fun _ => (1 : Nat))).sum = l.length := by
  induction l with
  | nil => rfl
  | cons a l ih => simp [ih]; omega

theorem frame_step_logs_length (env : S3Env) (cf : String) (g : FileEntry) :
    ((BackupFrame_backup_step env cf g).logs).length = 1 := by
  cases hh : env.head (derive_key cf g.relPath) with
  | ok meta =>
    by_cases h : mdGet meta "file_md5" = some (compute_md5 env.md5hex g.content) <;>
      simp [BackupFrame_backup_step, frame_upload, hh, h]
  | clientError code => simp [BackupFrame_backup_step, frame_upload, hh]
  | otherError => simp [BackupFrame_backup_step, frame_upload, hh]

theorem flatten_length_all_one {α : Type} :
    ∀ (L : List (List α)), (∀ x ∈ L, x.length = 1) → L.flatten.length = L.length := by
  intro L
  induction L with
  | nil => intro _; rfl
  | cons a L ih =>
    intro h
    have ha : a.length = 1 := h a (by simp)
    have hL : L.flatten.length = L.length := ih (fun x hx => h x (by simp [hx]))
    simp [ha, hL]
    omega

theorem fsRead_fsWrite (fs : List (String × Bytes)) (path : String) (c : Bytes) :
    fsRead (fsWrite fs path c) path = some c := by
  unfold fsRead fsWrite
  rw [List.find?_cons_of_pos _ (by simp)]
  rfl

/-- C8: the fingerprint function, which streams the file in fixed-size
4096-byte chunks and feeds each chunk to the digest, computes exactly the
digest of the file's full byte content: for every byte sequence and every
(abstract) digest function, the chunked streaming computation equals the
one-shot digest of the whole sequence. -/
theorem c8_md5_streaming (hexdigest : Bytes → String) (content : Bytes) :
    compute_md5 hexdigest content = hexdigest content :=
  compute_md5_eq hexdigest content

/-- C2: in the upload pass, for every enumerated file whose freshly
computed local fingerprint equals the fingerprint stored in the remote
object's metadata, no upload call is made for that file and the progress
counter is still advanced by the file's full byte size (S3Sync.py lines
199-208; the skip branch of Ver4.2.py lines 198-207 is the same logic). -/
theorem c2_skip_advances_progress (env : S3Env) (cf : String) (f : FileEntry)
    (meta : List (String × String))
    (hhead : env.head (derive_key cf f.relPath) = HeadOutcome.ok meta)
    (hmd5 : mdGet meta "file_md5" = some (compute_md5 env.md5hex f.content)) :
    (BackupFrame_backup_step env cf f).uploads = [] ∧
    (BackupFrame_backup_step env cf f).bytesAdvanced = f.content.length ∧
    (BackupFrame_backup_step env cf f).logs = [LogEvent.skipping f.relPath] := by
  refine ⟨?_, ?_, ?_⟩ <;> simp [BackupFrame_backup_step, hhead, hmd5]

theorem c2_witness :
    envSkip.head (derive_key "Default" fileA.relPath) = HeadOutcome.ok [("file_md5", "m")] ∧
    mdGet [("file_md5", "m")] "file_md5" = some (compute_md5 envSkip.md5hex fileA.content) ∧
    ((BackupFrame_backup_step envSkip "Default" fileA).uploads = [] ∧
     (BackupFrame_backup_step envSkip "Default" fileA).bytesAdvanced = fileA.content.length ∧
     (BackupFrame_backup_step envSkip "Default" fileA).logs = [LogEvent.skipping fileA.relPath]) :=
  ⟨rfl, by rw [compute_md5_eq]; rfl, c2_skip_advances_progress envSkip "Default" fileA
    [("file_md5", "m")] rfl (by rw [compute_md5_eq]; rfl)⟩

/-- C3: in the upload pass, for every enumerated file whose computed key
has no remote counterpart (head_object reports 404), the file's full
content is uploaded and its fingerprint is attached as metadata under the
fixed key name file_md5; the stored object then carries that content and
fingerprint (backupjob.py lines 46-69, S3Sync.py lines 199-217). -/
theorem c3_upload_when_absent (env : S3Env) (cf : String) (f : FileEntry)
    (bucket : List (String × RemoteObject))
    (hhead : env.head (derive_key cf f.relPath) = HeadOutcome.clientError "404") :
    (BackupFrame_backup_step env cf f).uploads =
      [{ key := derive_key cf f.relPath, content := f.content,
         metadata := [("file_md5", compute_md5 env.md5hex f.content)] }] ∧
    (backupjob_backup_step env cf f).uploads =
      [{ key := derive_key cf f.relPath, content := f.content,
         metadata := [("file_md5", compute_md5 env.md5hex f.content)] }] ∧
    bucketGet (applyUpload bucket
        { key := derive_key cf f.relPath, content := f.content,
          metadata := [("file_md5", compute_md5 env.md5hex f.content)] })
        (derive_key cf f.relPath) =
      some { content := f.content,
             metadata := [("file_md5", compute_md5 env.md5hex f.content)] } := by
  refine ⟨?_, ?_, ?_⟩
  · simp [BackupFrame_backup_step, frame_upload, hhead]
  · simp [backupjob_backup_step, backupjob_upload, hhead]
  · simp [bucketGet, applyUpload]

theorem c3_witness :
    env404.head (derive_key "Default" fileA.relPath) = HeadOutcome.clientError "404" ∧
    ((BackupFrame_backup_step env404 "Default" fileA).uploads =
      [{ key := derive_key "Default" fileA.relPath, content := fileA.content,
         metadata := [("file_md5", compute_md5 env404.md5hex fileA.content)] }] ∧
     (backupjob_backup_step env404 "Default" fileA).uploads =
      [{ key := derive_key "Default" fileA.relPath, content := fileA.content,
         metadata := [("file_md5", compute_md5 env404.md5hex fileA.content)] }] ∧
     bucketGet (applyUpload []
        { key := derive_key "Default" fileA.relPath, content := fileA.content,
          metadata := [("file_md5", compute_md5 env404.md5hex fileA.content)] })
        (derive_key "Default" fileA.relPath) =
      some { content := fileA.content,
             metadata := [("file_md5", compute_md5 env404.md5hex fileA.content)] }) :=
  ⟨rfl, c3_upload_when_absent env404 "Default" fileA [] rfl⟩

/-- C10: in the upload pass, for every file whose metadata fetch succeeds
but whose metadata mapping has no file_md5 entry, the file is treated as
changed and is uploaded (the absent fingerprint never compares equal to
the fresh local one, since Python's None never equals a string),
re-tagging the object with fingerprint metadata (S3Sync.py lines 200-217,
backupjob.py lines 49-66). -/
theorem c10_missing_fingerprint_uploads (env : S3Env) (cf : String) (f : FileEntry)
    (meta : List (String × String))
    (hhead : env.head (derive_key cf f.relPath) = HeadOutcome.ok meta)
    (hnone : mdGet meta "file_md5" = none) :
    (BackupFrame_backup_step env cf f).uploads =
      [{ key := derive_key cf f.relPath, content := f.content,
         metadata := [("file_md5", compute_md5 env.md5hex f.content)] }] ∧
    (backupjob_backup_step env cf f).uploads =
      [{ key := derive_key cf f.relPath, content := f.content,
         metadata := [("file_md5", compute_md5 env.md5hex f.content)] }] := by
  refine ⟨?_, ?_⟩
  · simp [BackupFrame_backup_step, frame_upload, hhead, hnone]
  · simp [backupjob_backup_step, backupjob_upload, hhead, hnone]

theorem c10_witness :
    envNoTag.head (derive_key "Default" fileA.relPath) = HeadOutcome.ok [] ∧
    mdGet [] "file_md5" = none ∧
    ((BackupFrame_backup_step envNoTag "Default" fileA).uploads =
      [{ key := derive_key "Default" fileA.relPath, content := fileA.content,
         metadata := [("file_md5", compute_md5 envNoTag.md5hex fileA.content)] }] ∧
     (backupjob_backup_step envNoTag "Default" fileA).uploads =
      [{ key := derive_key "Default" fileA.relPath, content := fileA.content,
         metadata := [("file_md5", compute_md5 envNoTag.md5hex fileA.content)] }]) :=
  ⟨rfl, rfl, c10_missing_fingerprint_uploads envNoTag "Default" fileA [] rfl rfl⟩

/-- C4 fails as stated: the backslash normalization is applied to the
whole derived key, so the distinct namespaces a\b and a/b yield the same
key for the same relative path. -/
theorem c4_counterexample :
    derive_key "a\\b" "f.txt" = derive_key "a/b" "f.txt" ∧ "a\\b" ≠ "a/b" := by
  refine ⟨by decide, by decide⟩

/-- C4 amended: the remote key is a pure, deterministic function of the
namespace and the relative path of the shape backup/<namespace>/<relative
path> with every backslash replaced by a forward slash; two namespaces
that remain distinct after that backslash normalization (in particular
any two distinct backslash-free namespaces) never produce the same key
for identical relative paths.  Namespaces that differ only by backslash
versus slash collide, as the counterexample shows. -/
theorem c4_amended_keys (ns₁ ns₂ rel : String)
    (h : normalizeSeps ns₁ ≠ normalizeSeps ns₂) :
    derive_key ns₁ rel = normalizeSeps ("backup/" ++ ns₁ ++ "/" ++ rel) ∧
    derive_key ns₁ rel ≠ derive_key ns₂ rel := by
  refine ⟨rfl, fun heq => h ?_⟩
  have hdata : ("backup/" ++ ns₁ ++ "/" ++ rel).data.map normChar =
      ("backup/" ++ ns₂ ++ "/" ++ rel).data.map normChar := congrArg String.data heq
  simp only [string_data_append, List.map_append, List.append_assoc] at hdata
  have h1 := List.append_cancel_left hdata
  have h2 := List.append_cancel_right h1
  exact congrArg String.mk h2

theorem c4_witness :
    normalizeSeps "A" ≠ normalizeSeps "B" ∧
    (derive_key "A" "f.txt" = normalizeSeps ("backup/" ++ "A" ++ "/" ++ "f.txt") ∧
     derive_key "A" "f.txt" ≠ derive_key "B" "f.txt") :=
  ⟨by decide, c4_amended_keys "A" "B" "f.txt" (by decide)⟩

/-- C1 fails as stated on S3Sync.py: in BackupFrame.backup_directory the
head_object call sits in a bare except-Exception-pass, so a metadata
fetch that fails with a non-404 ClientError (code 500 here) is neither
logged nor does it skip the file — the flow falls through to the upload,
whose call is issued and whose success line is the only log entry. -/
theorem c1_counterexample :
    envErr.head (derive_key "Default" "a.txt") = HeadOutcome.clientError "500" ∧
    (BackupFrame_backup_step envErr "Default" fileA).uploads =
      [{ key := "backup/Default/a.txt", content := [0], metadata := [("file_md5", "m")] }] ∧
    (BackupFrame_backup_step envErr "Default" fileA).logs = [LogEvent.uploaded "a.txt"] :=
  ⟨rfl, by decide, by decide⟩

/-- C1 amended: in the headless upload pass (backupjob.py, whose
ClientError discrimination Ver4.2.py mirrors), for every file whose
metadata fetch fails with a ClientError other than 404, the error is
logged and that file is skipped entirely — no upload call is made — and
the pass moves on to the next file; the GUI upload pass of S3Sync.py
instead silently swallows the fetch error and uploads the file. -/
theorem c1_amended_fetch_error (env : S3Env) (cf : String) (f : FileEntry)
    (code : String) (rest : List FileEntry)
    (hhead : env.head (derive_key cf f.relPath) = HeadOutcome.clientError code)
    (hcode : code ≠ "404") :
    (backupjob_backup_step env cf f).uploads = [] ∧
    (backupjob_backup_step env cf f).logs =
      [LogEvent.errorChecking (derive_key cf f.relPath)] ∧
    (backupjob_backup_directory env cf (f :: rest)).uploads =
      (backupjob_backup_directory env cf rest).uploads ∧
    (backupjob_backup_directory env cf (f :: rest)).logs =
      LogEvent.errorChecking (derive_key cf f.relPath) ::
        (backupjob_backup_directory env cf rest).logs ∧
    (BackupFrame_backup_step env cf f).uploads =
      [{ key := derive_key cf f.relPath, content := f.content,
         metadata := [("file_md5", compute_md5 env.md5hex f.content)] }] := by
  have hstep : backupjob_backup_step env cf f =
      { uploads := [], logs := [LogEvent.errorChecking (derive_key cf f.relPath)],
        bytesAdvanced := 0 } := by
    simp [backupjob_backup_step, hhead, hcode]
  refine ⟨by simp [hstep], by simp [hstep], ?_, ?_, ?_⟩
  · unfold backupjob_backup_directory
    rw [upload_pass_foldl, upload_pass_foldl]
    simp [hstep]
  · unfold backupjob_backup_directory
    rw [upload_pass_foldl, upload_pass_foldl]
    simp [hstep]
  · simp [BackupFrame_backup_step, frame_upload, hhead]

theorem c1_witness :
    envErr.head (derive_key "Default" fileA.relPath) = HeadOutcome.clientError "500" ∧
    ("500" : String) ≠ "404" ∧
    ((backupjob_backup_step envErr "Default" fileA).uploads = [] ∧
     (backupjob_backup_step envErr "Default" fileA).logs =
       [LogEvent.errorChecking (derive_key "Default" fileA.relPath)] ∧
     (backupjob_backup_directory envErr "Default" (fileA :: [])).uploads =
       (backupjob_backup_directory envErr "Default" []).uploads ∧
     (backupjob_backup_directory envErr "Default" (fileA :: [])).logs =
       LogEvent.errorChecking (derive_key "Default" fileA.relPath) ::
         (backupjob_backup_directory envErr "Default" []).logs ∧
     (BackupFrame_backup_step envErr "Default" fileA).uploads =
       [{ key := derive_key "Default" fileA.relPath, content := fileA.content,
          metadata := [("file_md5", compute_md5 envErr.md5hex fileA.content)] }]) :=
  ⟨rfl, by decide, c1_amended_fetch_error envErr "Default" fileA "500" [] rfl (by decide)⟩

/-- C5: if the paginated listing fails at any point during the restore
pass, the error is logged and the whole pass is aborted before any
download is attempted: no download call, no makedirs call, and the local
tree is unchanged (S3Sync.py lines 236-248, identical in Ver4.2.py lines
240-252). -/
theorem c5_listing_error_aborts (env : RestoreEnv) (restore_dir cf : String)
    (fs₀ : List (String × Bytes)) (e : String)
    (hmem : PageResult.err e ∈ env.pages) :
    (BackupFrame_restore_backup env restore_dir cf fs₀).downloads = [] ∧
    (BackupFrame_restore_backup env restore_dir cf fs₀).mkdirs = [] ∧
    (BackupFrame_restore_backup env restore_dir cf fs₀).fs = fs₀ ∧
    ∃ msg, (BackupFrame_restore_backup env restore_dir cf fs₀).logs =
      [RLog.errorListing msg] := by
  obtain ⟨msg, hmsg⟩ := drainPages_of_mem_err env.pages e hmem
  refine ⟨?_, ?_, ?_, ⟨msg, ?_⟩⟩ <;> simp [BackupFrame_restore_backup, hmsg]

theorem c5_witness :
    PageResult.err "boom" ∈ renvErrList.pages ∧
    ((BackupFrame_restore_backup renvErrList "out" "D" [("out/x.txt", [9])]).downloads = [] ∧
     (BackupFrame_restore_backup renvErrList "out" "D" [("out/x.txt", [9])]).mkdirs = [] ∧
     (BackupFrame_restore_backup renvErrList "out" "D" [("out/x.txt", [9])]).fs =
       [("out/x.txt", [9])] ∧
     ∃ msg, (BackupFrame_restore_backup renvErrList "out" "D" [("out/x.txt", [9])]).logs =
       [RLog.errorListing msg]) :=
  ⟨by decide, c5_listing_error_aborts renvErrList "out" "D" [("out/x.txt", [9])] "boom"
    (by decide)⟩

/-- C6: a failure of a single file's upload in the upload pass, or of a
single object's download in the restore pass, is logged and does not
abort the pass: the upload pass emits exactly one log line per enumerated
file (so every file in the traversal is processed) including the error
line for the failing file, and the restore pass issues one download call
per listed object including the objects after a failing one, logging the
failing object's error (S3Sync.py lines 210-220 and 259-273). -/
theorem c6_per_file_failure_nonfatal (env : S3Env) (cf : String)
    (l₁ : List FileEntry) (f : FileEntry) (l₂ : List FileEntry)
    (renv : RestoreEnv) (restore_dir cf' : String) (fs₀ : List (String × Bytes))
    (objs : List (String × Nat)) (k : String) (sz : Nat)
    (hhead : env.head (derive_key cf f.relPath) = HeadOutcome.clientError "404")
    (hup : env.uploadOk (derive_key cf f.relPath) = false)
    (hdrain : drainPages renv.pages = Except.ok objs)
    (hkmem : (k, sz) ∈ objs)
    (hfetch : renv.fetch k = none) :
    LogEvent.errorUploading f.relPath ∈
      (BackupFrame_backup_directory env cf (l₁ ++ f :: l₂)).logs ∧
    (BackupFrame_backup_directory env cf (l₁ ++ f :: l₂)).logs.length =
      (l₁ ++ f :: l₂).length ∧
    RLog.errorDownloading k ∈ (BackupFrame_restore_backup renv restore_dir cf' fs₀).logs ∧
    (BackupFrame_restore_backup renv restore_dir cf' fs₀).downloads.length = objs.length := by
  have hstepf : (BackupFrame_backup_step env cf f).logs =
      [LogEvent.errorUploading f.relPath] := by
    simp [BackupFrame_backup_step, frame_upload, hhead, hup]
  refine ⟨?_, ?_, ?_, ?_⟩
  · unfold BackupFrame_backup_directory
    rw [upload_pass_foldl]
    simp only [List.nil_append]
    exact List.mem_flatten.mpr ⟨(BackupFrame_backup_step env cf f).logs,
      List.mem_map_of_mem _ (by simp), by simp [hstepf]⟩
  · unfold BackupFrame_backup_directory
    rw [upload_pass_foldl]
    simp only [List.nil_append]
    rw [flatten_length_all_one]
    · simp
    · intro x hx
      obtain ⟨g, _, rfl⟩ := List.mem_map.mp hx
      exact frame_step_logs_length env cf g
  · simp only [BackupFrame_restore_backup, hdrain]
    rw [restore_pass_foldl]
    simp only [List.nil_append]
    refine List.mem_map.mpr ⟨(k, sz), hkmem, ?_⟩
    simp [hfetch]
  · simp only [BackupFrame_restore_backup, hdrain]
    rw [restore_pass_foldl]
    simp

theorem c6_witness :
    env404fail.head (derive_key "Default" fileA.relPath) = HeadOutcome.clientError "404" ∧
    env404fail.uploadOk (derive_key "Default" fileA.relPath) = false ∧
    drainPages renvNone.pages = Except.ok [("backup/D/x.txt", 1)] ∧
    ("backup/D/x.txt", 1) ∈ [(("backup/D/x.txt" : String), (1 : Nat))] ∧
    renvNone.fetch "backup/D/x.txt" = none ∧
    (LogEvent.errorUploading fileA.relPath ∈
       (BackupFrame_backup_directory env404fail "Default" ([] ++ fileA :: [])).logs ∧
     (BackupFrame_backup_directory env404fail "Default" ([] ++ fileA :: [])).logs.length =
       ([] ++ fileA :: []).length ∧
     RLog.errorDownloading "backup/D/x.txt" ∈
       (BackupFrame_restore_backup renvNone "out" "D" []).logs ∧
     (BackupFrame_restore_backup renvNone "out" "D" []).downloads.length =
       [(("backup/D/x.txt" : String), (1 : Nat))].length) :=
  ⟨rfl, rfl, rfl, by decide, rfl,
    c6_per_file_failure_nonfatal env404fail "Default" [] fileA [] renvNone "out" "D" []
      [("backup/D/x.txt", 1)] "backup/D/x.txt" 1 rfl rfl rfl (by decide) rfl⟩

/-- C7: for an object handled by the restore pass, the local destination
path is derived by stripping the namespace prefix from the object key
(the key's path components after the prefix's components) and joining the
remainder under the destination root; the makedirs call on its parent
directory is issued, and the object's content is written to that path
unconditionally — the step never reads the existing local tree, so
whatever state st (and in particular whatever file already exists at the
destination path) the write overwrites it.  BackupFrame.restore_backup
(S3Sync.py lines 259-273, identical in Ver4.2.py lines 264-278) is the
fold of this step over every enumerated object. -/
theorem c7_restore_overwrites (env : RestoreEnv) (restore_dir pfx : String)
    (st : RestoreResult) (k : String) (sz : Nat) (comps : List String) (c : Bytes)
    (hcomps : pathComponents k = pathComponents pfx ++ comps)
    (hfetch : env.fetch k = some c) :
    (restore_step env restore_dir pfx st (k, sz)).mkdirs =
      st.mkdirs ++ [dirname (joinPath restore_dir (joinComponents comps))] ∧
    (restore_step env restore_dir pfx st (k, sz)).downloads =
      st.downloads ++ [(k, joinPath restore_dir (joinComponents comps))] ∧
    fsRead (restore_step env restore_dir pfx st (k, sz)).fs
      (joinPath restore_dir (joinComponents comps)) = some c := by
  have hrel : os_relpath k pfx = joinComponents comps := by
    unfold os_relpath
    rw [hcomps, List.drop_left]
  refine ⟨?_, ?_, ?_⟩
  · simp [restore_step, hfetch, hrel]
  · simp [restore_step, hfetch, hrel]
  · simp only [restore_step, hfetch, hrel]
    exact fsRead_fsWrite _ _ _

theorem c7_witness :
    pathComponents "backup/D/x.txt" = pathComponents "backup/D/" ++ ["x.txt"] ∧
    renvSome.fetch "backup/D/x.txt" = some [7] ∧
    ((restore_step renvSome "out" "backup/D/" stPre ("backup/D/x.txt", 1)).mkdirs =
       stPre.mkdirs ++ [dirname (joinPath "out" (joinComponents ["x.txt"]))] ∧
     (restore_step renvSome "out" "backup/D/" stPre ("backup/D/x.txt", 1)).downloads =
       stPre.downloads ++ [("backup/D/x.txt", joinPath "out" (joinComponents ["x.txt"]))] ∧
     fsRead (restore_step renvSome "out" "backup/D/" stPre ("backup/D/x.txt", 1)).fs
       (joinPath "out" (joinComponents ["x.txt"])) = some [7]) :=
  ⟨by decide, rfl, c7_restore_overwrites renvSome "out" "backup/D/" stPre "backup/D/x.txt" 1
    ["x.txt"] [7] (by decide) rfl⟩

theorem restore_selected_loop_spec (flag : Nat → Bool) (restore_dir pfx : String) :
    ∀ (items : List (String × Nat)) (i : Nat),
      ∃ k, k ≤ items.length ∧
        restore_selected_loop flag restore_dir pfx i items =
          (items.take k).map (fun o => (o.1, joinPath restore_dir (os_relpath o.1 pfx))) ∧
        (∀ j, j < k → flag (i + j) = true) ∧
        (k < items.length → flag (i + k) = false) := by
  intro items
  induction items with
  | nil =>
    intro i
    exact ⟨0, by simp [restore_selected_loop]⟩
  | cons o rest ih =>
    intro i
    by_cases h : flag i
    · obtain ⟨k, hk, heq, hall, hstop⟩ := ih (i + 1)
      refine ⟨k + 1, by simpa using hk, ?_, ?_, ?_⟩
      · simp [restore_selected_loop, h, heq]
      · intro j hj
        cases j with
        | zero => simpa using h
        | succ j =>
          have harith : i + (j + 1) = (i + 1) + j := by omega
          rw [harith]
          exact hall j (by omega)
      · intro hlt
        have harith : i + (k + 1) = (i + 1) + k := by omega
        rw [harith]
        exact hstop (by simpa using hlt)
    · have hfalse : flag i = false := by revert h; cases flag i <;> simp
      refine ⟨0, Nat.zero_le _, ?_, ?_, ?_⟩
      · simp [restore_selected_loop, hfalse]
      · intro j hj; omega
      · intro _; simpa using hfalse

/-- C9: in the selective restore over the caller-supplied selection, the
cooperative cancellation flag is checked before each object's download
(check j precedes the j-th selected item): the downloads started are
exactly a prefix of the selection — every started item saw the flag true
at its check, and if the prefix is proper, the first item not restored is
exactly where the flag was observed false, so once the flag is cleared no
further download in the batch is started.  Each element of the download
list is a whole single-object transfer: the flag is only consulted
between items, never inside one, so an in-flight transfer is not
interrupted (S3Sync.py lines 677-727). -/
theorem c9_cancellation_prefix (flag : Nat → Bool) (restore_dir cf : String)
    (items : List (String × Nat)) :
    ∃ k, k ≤ items.length ∧
      restore_selected_files flag restore_dir cf items =
        (items.take k).map
          (fun o => (o.1, joinPath restore_dir (os_relpath o.1 ("backup/" ++ cf)))) ∧
      (∀ j, j < k → flag j = true) ∧
      (k < items.length → flag k = false) := by
  obtain ⟨k, hk, heq, hall, hstop⟩ :=
    restore_selected_loop_spec flag restore_dir ("backup/" ++ cf) items 0
  refine ⟨k, hk, ?_, ?_, ?_⟩
  · simpa [restore_selected_files] using heq
  · intro j hj
    simpa using hall j hj
  · intro h
    simpa using hstop h
